import Mathlib

/-!
# ResetAllApprovals (Lightning Web Component)

A shallow embedding of `force-app/main/default/lwc/resetAllApprovals/resetAllApprovals.js`.

The component holds two fields (`recordId`, `isProcessing`) and one click handler.  The
handler talks to two collaborators: the Apex method `resetApprovals`, which returns a
promise settled later by the platform, and `dispatchEvent`, which receives a
`ShowToastEvent`.  Both are modelled as effects on an explicit world: every call to a
collaborator is appended to a chronological log, the promise returned by `resetApprovals`
is an identifier kept in `inflight` until the platform settles it, and the behaviour of
`dispatchEvent` (return or throw) is a parameter of the model.

The `.then(..).catch(..).finally(..)` chain is modelled by the three promise combinators
below, applied in order when the platform settles the call.
-/

namespace ResetAllApprovals

/-! ## JavaScript values -/

/-- JavaScript values, as far as the component can tell them apart: the handler only tests
truthiness and reads the own data properties `body` and `message`.  Numbers are kept up to
what truthiness needs (zero, non-zero, NaN). -/
inductive JSValue where
  | undefined : JSValue
  | null : JSValue
  | bool (b : Bool) : JSValue
  | num (n : Int) : JSValue
  | nan : JSValue
  | str (s : String) : JSValue
  | obj (props : List (String × JSValue)) : JSValue

/-- Completion of a synchronous JavaScript call: it returns a value or throws one. -/
inductive Completion where
  | normal (v : JSValue) : Completion
  | throw (e : JSValue) : Completion

/-- Settlement of a promise. -/
inductive Outcome where
  | fulfilled (v : JSValue) : Outcome
  | rejected (e : JSValue) : Outcome

/-- JavaScript `ToBoolean`: the falsy values are `undefined`, `null`, `false`, `0`, `NaN`
and the empty string. -/
def JSValue.truthy : JSValue → Bool
  | .undefined => false
  | .null => false
  | .bool b => b
  | .num n => n != 0
  | .nan => false
  | .str s => s != ""
  | .obj _ => true

/-- The values on which a property read throws: `null` and `undefined`. -/
def JSValue.isNullish : JSValue → Bool
  | .undefined => true
  | .null => true
  | _ => false

/-- The `TypeError` thrown by a property read on `null` or `undefined`. -/
def typeError : JSValue :=
  .obj [("name", .str "TypeError"), ("message", .str "Cannot read properties of null or undefined")]

/-- Property read `v.key` for the keys the component uses (`body`, `message`): it throws on
`null` and `undefined`, looks the key up on an object, and is `undefined` on the other
primitives. -/
def JSValue.getProp (v : JSValue) (key : String) : Except JSValue JSValue :=
  match v with
  | .undefined => .error typeError
  | .null => .error typeError
  | .obj props => .ok ((props.lookup key).getD .undefined)
  | _ => .ok .undefined

/-- Optional chaining `v?.key`: `undefined` when `v` is `null` or `undefined`. -/
def JSValue.optGetProp (v : JSValue) (key : String) : Except JSValue JSValue :=
  if v.isNullish then .ok .undefined else v.getProp key

/-- Logical or, `a || b` (with `b` already a value). -/
def JSValue.or (a b : JSValue) : JSValue :=
  if a.truthy then a else b

/-! ## The world -/

/-- The argument of `new ShowToastEvent({title, message, variant})`. -/
structure ShowToastEvent where
  title : JSValue
  message : JSValue
  variant : JSValue

/-- What the component does that can be seen from outside, in order of occurrence.  The three
continuation entries record that a continuation was entered. -/
inductive Event where
  | apexCall (request : JSValue) : Event
  | toast (t : ShowToastEvent) : Event
  | successCont : Event
  | failureCont (error : JSValue) : Event
  | cleanupCont : Event

/-- Behaviour of `dispatchEvent`: given what happened so far and the event, it returns
(`none`) or throws a value. -/
abbrev Dispatcher := List Event → ShowToastEvent → Option JSValue

/-- The component instance together with the log of its effects and the calls to
`resetApprovals` that have not settled yet. -/
structure World where
  recordId : JSValue
  isProcessing : Bool
  log : List Event
  inflight : List Nat
  nextCall : Nat

/-- A freshly constructed component: `isProcessing = false`, nothing logged, no call issued. -/
def mount (recordId : JSValue) : World :=
  { recordId := recordId, isProcessing := false, log := [], inflight := [], nextCall := 0 }

/-- The requests passed to `resetApprovals`, oldest first. -/
def callsOf : List Event → List JSValue
  | [] => []
  | .apexCall r :: es => r :: callsOf es
  | _ :: es => callsOf es

/-- The notifications handed to `dispatchEvent`, oldest first. -/
def toastsOf : List Event → List ShowToastEvent
  | [] => []
  | .toast t :: es => t :: toastsOf es
  | _ :: es => toastsOf es

/-- Number of times the success continuation was entered. -/
def successRuns : List Event → Nat
  | [] => 0
  | .successCont :: es => successRuns es + 1
  | _ :: es => successRuns es

/-- Number of times the failure continuation was entered. -/
def failureRuns : List Event → Nat
  | [] => 0
  | .failureCont _ :: es => failureRuns es + 1
  | _ :: es => failureRuns es

/-- Number of times the cleanup continuation was entered. -/
def cleanupRuns : List Event → Nat
  | [] => 0
  | .cleanupCont :: es => cleanupRuns es + 1
  | _ :: es => cleanupRuns es

/-! ## The component -/

/-- Call `this.dispatchEvent(event)`: the call is logged, then it returns or throws as the
dispatcher says. -/
def dispatchEvent (disp : Dispatcher) (event : ShowToastEvent) (w : World) : World × Completion :=
  let w1 := { w with log := w.log ++ [Event.toast event] }
  match disp w.log event with
  | none => (w1, .normal .undefined)
  | some e => (w1, .throw e)

/-- Method `showToast(title, message, variant)`. -/
def showToast (disp : Dispatcher) (title message variant : JSValue) (w : World) :
    World × Completion :=
  dispatchEvent disp { title := title, message := message, variant := variant } w

/-- Call `resetApprovals(request)`: the request is logged and a pending promise, named by a
fresh identifier, is returned. -/
def resetApprovals (request : JSValue) (w : World) : World × Nat :=
  ({ w with log := w.log ++ [Event.apexCall request],
            inflight := w.inflight ++ [w.nextCall],
            nextCall := w.nextCall + 1 }, w.nextCall)

/-- Method `handleClick()`, up to the point where it returns: the guard on `recordId`, then
the busy flag and the call.  The continuations are attached to the promise and run at
settlement, see `settleChain`. -/
def handleClick (disp : Dispatcher) (w : World) : World × Completion :=
  if !w.recordId.truthy then
    match showToast disp (.str "Error") (.str "No recordId found") (.str "error") w with
    | (w1, .throw e) => (w1, .throw e)
    | (w1, .normal _) => (w1, .normal .undefined)
  else
    let w1 := { w with isProcessing := true }
    let (w2, _) := resetApprovals (.obj [("expenseId", w1.recordId)]) w1
    (w2, .normal .undefined)

/-- The success continuation, the arrow function given to `.then`. -/
def onFulfilled (disp : Dispatcher) (_v : JSValue) (w : World) : World × Completion :=
  let w1 := { w with log := w.log ++ [Event.successCont] }
  showToast disp (.str "Success") (.str "All approvals have been reset") (.str "success") w1

/-- The expression `error.body?.message || 'Unknown error'`. -/
def errorMessage (error : JSValue) : Except JSValue JSValue :=
  match error.getProp "body" with
  | .error e => .error e
  | .ok body =>
    match body.optGetProp "message" with
    | .error e => .error e
    | .ok m => .ok (m.or (.str "Unknown error"))

/-- The failure continuation, the arrow function given to `.catch`. -/
def onRejected (disp : Dispatcher) (error : JSValue) (w : World) : World × Completion :=
  let w1 := { w with log := w.log ++ [Event.failureCont error] }
  match errorMessage error with
  | .error e => (w1, .throw e)
  | .ok m => showToast disp (.str "Error") m (.str "error") w1

/-- The cleanup continuation, the arrow function given to `.finally`. -/
def onFinally (w : World) : World × Completion :=
  let w1 := { w with log := w.log ++ [Event.cleanupCont] }
  ({ w1 with isProcessing := false }, .normal .undefined)

/-! ## Promise combinators -/

/-- Run a continuation and turn its completion into the settlement of the derived promise. -/
def settleWith (r : World × Completion) : World × Outcome :=
  match r with
  | (w, .normal v) => (w, .fulfilled v)
  | (w, .throw e) => (w, .rejected e)

/-- Settlement of `p.then(f)` given the settlement of `p`: `f` runs only on fulfilment, a
rejection passes through. -/
def promiseThen (f : JSValue → World → World × Completion) (o : Outcome) (w : World) :
    World × Outcome :=
  match o with
  | .fulfilled v => settleWith (f v w)
  | .rejected e => (w, .rejected e)

/-- Settlement of `p.catch(g)` given the settlement of `p`: `g` runs only on rejection, a
fulfilment passes through. -/
def promiseCatch (g : JSValue → World → World × Completion) (o : Outcome) (w : World) :
    World × Outcome :=
  match o with
  | .fulfilled v => (w, .fulfilled v)
  | .rejected e => settleWith (g e w)

/-- Settlement of `p.finally(h)` given the settlement of `p`: `h` always runs, and the
settlement of `p` passes through unless `h` throws. -/
def promiseFinally (h : World → World × Completion) (o : Outcome) (w : World) :
    World × Outcome :=
  match h w with
  | (w1, .normal _) => (w1, o)
  | (w1, .throw e) => (w1, .rejected e)

/-- The chain `resetApprovals(..).then(..).catch(..).finally(..)` once the call has settled
with `o`: the continuations run in the order of the chain. -/
def settleChain (disp : Dispatcher) (o : Outcome) (w : World) : World × Outcome :=
  let (w1, o1) := promiseThen (onFulfilled disp) o w
  let (w2, o2) := promiseCatch (onRejected disp) o1 w1
  promiseFinally onFinally o2 w2

/-! ## Executions -/

/-- What can happen to the component: the user activates the button, or the platform settles
a call. -/
inductive Action where
  | click : Action
  | settle (call : Nat) (o : Outcome) : Action

/-- One action.  A call settles at most once, and only if it is in flight. -/
def step (disp : Dispatcher) (w : World) (a : Action) : World :=
  match a with
  | .click => (handleClick disp w).1
  | .settle k o =>
    if k ∈ w.inflight then
      (settleChain disp o { w with inflight := w.inflight.erase k }).1
    else w

/-- A sequence of actions, from left to right. -/
def run (disp : Dispatcher) (acts : List Action) (w : World) : World :=
  acts.foldl (step disp) w

/-- The dispatcher of a platform on which `dispatchEvent` always returns. -/
def quietDispatcher : Dispatcher := fun _ _ => none

/-! ## Vocabulary of the statements -/

/-- The success notification of the component. -/
def successToast : ShowToastEvent :=
  { title := .str "Success", message := .str "All approvals have been reset",
    variant := .str "success" }

/-- The error notification of the component with the given message. -/
def errorToast (message : JSValue) : ShowToastEvent :=
  { title := .str "Error", message := message, variant := .str "error" }

/-- The request the component builds from its `recordId`. -/
def requestOf (w : World) : JSValue := .obj [("expenseId", w.recordId)]

/-- A rejection value without `body.message`: it is not an object, or it has no `body`, or its
`body` is not an object, or its `body` has no `message`. -/
def lacksBodyMessage : JSValue → Bool
  | .obj props =>
    match props.lookup "body" with
    | some (.obj bodyProps) => (bodyProps.lookup "message").isNone
    | _ => true
  | _ => true

/-- One activation that runs to completion: a click, then the settlement with `o` of the call
that this click issues. -/
def activate (disp : Dispatcher) (o : Outcome) (w : World) : World :=
  run disp [.click, .settle w.nextCall o] w

/-- A dispatcher for which `dispatchEvent` always throws. -/
def failingDispatcher : Dispatcher :=
  fun _ _ => some (.obj [("name", .str "Error"), ("message", .str "dispatch failed")])

/-- The entries of the continuations in a list of events, in order, each failure entry with
the value the failure continuation received. -/
def continuationsOf : List Event → List Event
  | [] => []
  | .successCont :: es => .successCont :: continuationsOf es
  | .failureCont e :: es => .failureCont e :: continuationsOf es
  | .cleanupCont :: es => .cleanupCont :: continuationsOf es
  | _ :: es => continuationsOf es

/-- The action settles the call `k`. -/
def Action.settlesCall (k : Nat) : Action → Bool
  | .settle j _ => j == k
  | .click => false

/-- The outcome is a rejection with `null` or `undefined`. -/
def Outcome.rejectedNullish : Outcome → Bool
  | .rejected e => e.isNullish
  | .fulfilled _ => false

/-! ## Basic facts about the log projections -/

theorem callsOf_append (xs ys : List Event) : callsOf (xs ++ ys) = callsOf xs ++ callsOf ys := by
  induction xs with
  | nil => rfl
  | cons x xs ih => cases x <;> simp [callsOf, ih]

theorem toastsOf_append (xs ys : List Event) :
    toastsOf (xs ++ ys) = toastsOf xs ++ toastsOf ys := by
  induction xs with
  | nil => rfl
  | cons x xs ih => cases x <;> simp [toastsOf, ih]

theorem successRuns_append (xs ys : List Event) :
    successRuns (xs ++ ys) = successRuns xs + successRuns ys := by
  induction xs with
  | nil => simp [successRuns]
  | cons x xs ih =>
    cases x <;> simp [successRuns, ih]
    omega

theorem failureRuns_append (xs ys : List Event) :
    failureRuns (xs ++ ys) = failureRuns xs + failureRuns ys := by
  induction xs with
  | nil => simp [failureRuns]
  | cons x xs ih =>
    cases x <;> simp [failureRuns, ih]
    omega

theorem cleanupRuns_append (xs ys : List Event) :
    cleanupRuns (xs ++ ys) = cleanupRuns xs + cleanupRuns ys := by
  induction xs with
  | nil => simp [cleanupRuns]
  | cons x xs ih =>
    cases x <;> simp [cleanupRuns, ih]
    omega

/-! ## The handler and the chain, case by case -/

theorem handleClick_guard (disp : Dispatcher) (w : World) (h : w.recordId.truthy = false) :
    (handleClick disp w).1 =
      { w with log := w.log ++ [Event.toast (errorToast (.str "No recordId found"))] } := by
  unfold handleClick showToast dispatchEvent errorToast
  simp only [h]
  cases disp w.log _ <;> rfl

theorem handleClick_issue (disp : Dispatcher) (w : World) (h : w.recordId.truthy = true) :
    handleClick disp w =
      ({ w with isProcessing := true,
                log := w.log ++ [Event.apexCall (requestOf w)],
                inflight := w.inflight ++ [w.nextCall],
                nextCall := w.nextCall + 1 }, .normal .undefined) := by
  unfold handleClick resetApprovals requestOf
  simp [h]

theorem settleChain_rejected_throw (disp : Dispatcher) (error err : JSValue) (w : World)
    (h : errorMessage error = .error err) :
    settleChain disp (.rejected error) w =
      ({ w with log := w.log ++ [Event.failureCont error, Event.cleanupCont],
                isProcessing := false }, .rejected err) := by
  simp [settleChain, promiseThen, promiseCatch, promiseFinally, onRejected, onFinally,
    settleWith, h]

theorem settleChain_rejected_toast (disp : Dispatcher) (error m : JSValue) (w : World)
    (h : errorMessage error = .ok m) :
    (settleChain disp (.rejected error) w).1 =
      { w with log := w.log ++ [Event.failureCont error, Event.toast (errorToast m),
                                Event.cleanupCont],
               isProcessing := false } := by
  simp only [settleChain, promiseThen, promiseCatch, promiseFinally, onRejected, onFinally,
    settleWith, h, showToast, dispatchEvent, errorToast]
  cases disp (w.log ++ [Event.failureCont error]) _ <;> simp

theorem settleChain_fulfilled_quiet (disp : Dispatcher) (v : JSValue) (w : World)
    (h : disp (w.log ++ [Event.successCont]) successToast = none) :
    settleChain disp (.fulfilled v) w =
      ({ w with log := w.log ++ [Event.successCont, Event.toast successToast,
                                 Event.cleanupCont],
                isProcessing := false }, .fulfilled .undefined) := by
  have h2 : disp (w.log ++ [Event.successCont])
      { title := .str "Success", message := .str "All approvals have been reset",
        variant := .str "success" } = none := h
  simp [settleChain, promiseThen, promiseCatch, promiseFinally, onFulfilled, onFinally,
    settleWith, showToast, dispatchEvent, successToast, h2]

theorem settleChain_fulfilled_throw (disp : Dispatcher) (v x : JSValue) (w : World)
    (h : disp (w.log ++ [Event.successCont]) successToast = some x) :
    settleChain disp (.fulfilled v) w =
      settleChain disp (.rejected x)
        { w with log := w.log ++ [Event.successCont, Event.toast successToast] } := by
  have h2 : disp (w.log ++ [Event.successCont])
      { title := .str "Success", message := .str "All approvals have been reset",
        variant := .str "success" } = some x := h
  simp [settleChain, promiseThen, promiseCatch, promiseFinally, onFulfilled, onFinally,
    settleWith, showToast, dispatchEvent, successToast, h2]

theorem errorMessage_of_body_message (props bodyProps : List (String × JSValue)) (m : JSValue)
    (hb : props.lookup "body" = some (.obj bodyProps))
    (hm : bodyProps.lookup "message" = some m) :
    errorMessage (.obj props) = .ok (m.or (.str "Unknown error")) := by
  simp [errorMessage, JSValue.getProp, JSValue.optGetProp, JSValue.isNullish, hb, hm]

theorem errorMessage_of_lacksBodyMessage (e : JSValue) (hn : e.isNullish = false)
    (hl : lacksBodyMessage e = true) : errorMessage e = .ok (.str "Unknown error") := by
  cases e with
  | undefined => simp [JSValue.isNullish] at hn
  | null => simp [JSValue.isNullish] at hn
  | obj props =>
    simp only [lacksBodyMessage] at hl
    cases hb : props.lookup "body" with
    | none =>
      simp [errorMessage, JSValue.getProp, JSValue.optGetProp, JSValue.isNullish, hb,
        JSValue.or, JSValue.truthy]
    | some b =>
      cases b with
      | obj bodyProps =>
        simp only [hb, Option.isNone_iff_eq_none] at hl
        simp [errorMessage, JSValue.getProp, JSValue.optGetProp, JSValue.isNullish, hb, hl,
          JSValue.or, JSValue.truthy]
      | _ =>
        simp [errorMessage, JSValue.getProp, JSValue.optGetProp, JSValue.isNullish, hb,
          JSValue.or, JSValue.truthy]
  | _ =>
    simp [errorMessage, JSValue.getProp, JSValue.optGetProp, JSValue.isNullish,
      JSValue.or, JSValue.truthy]

theorem errorMessage_of_nullish (e : JSValue) (hn : e.isNullish = true) :
    errorMessage e = .error typeError := by
  cases e <;> simp [JSValue.isNullish] at hn <;> rfl

theorem run_click_settle (disp : Dispatcher) (w : World) (o : Outcome)
    (h : w.recordId.truthy = true) :
    run disp [.click, .settle w.nextCall o] w =
      (settleChain disp o
        { w with isProcessing := true,
                 log := w.log ++ [Event.apexCall (requestOf w)],
                 inflight := (w.inflight ++ [w.nextCall]).erase w.nextCall,
                 nextCall := w.nextCall + 1 }).1 := by
  simp [run, step, handleClick_issue disp w h]

/-! ## The guard -/

/-- C1: when `recordId` is `undefined`, `null` or the empty string, `handleClick` issues no
call to `resetApprovals` (the requests logged and the calls in flight are unchanged), hands
exactly one notification to `dispatchEvent`, with title "Error", message "No recordId found"
and variant "error", and leaves `isProcessing` as it was. -/
theorem handleClick_missing_recordId (disp : Dispatcher) (w : World)
    (h : w.recordId = .undefined ∨ w.recordId = .null ∨ w.recordId = .str "") :
    (handleClick disp w).1.log =
        w.log ++ [Event.toast { title := .str "Error", message := .str "No recordId found",
                                variant := .str "error" }] ∧
      callsOf (handleClick disp w).1.log = callsOf w.log ∧
      (handleClick disp w).1.inflight = w.inflight ∧
      toastsOf (handleClick disp w).1.log =
        toastsOf w.log ++ [{ title := .str "Error", message := .str "No recordId found",
                             variant := .str "error" }] ∧
      (handleClick disp w).1.isProcessing = w.isProcessing := by
  have hf : w.recordId.truthy = false := by
    rcases h with h | h | h <;> rw [h] <;> rfl
  rw [handleClick_guard disp w hf]
  simp [callsOf_append, toastsOf_append, callsOf, toastsOf, errorToast]

theorem handleClick_missing_recordId_witness :
    ((mount (.str "")).recordId = .undefined ∨ (mount (.str "")).recordId = .null ∨
        (mount (.str "")).recordId = .str "") ∧
      ((handleClick quietDispatcher (mount (.str ""))).1.log =
        (mount (.str "")).log ++
          [Event.toast { title := .str "Error", message := .str "No recordId found",
                         variant := .str "error" }] ∧
      callsOf (handleClick quietDispatcher (mount (.str ""))).1.log =
        callsOf (mount (.str "")).log ∧
      (handleClick quietDispatcher (mount (.str ""))).1.inflight = (mount (.str "")).inflight ∧
      toastsOf (handleClick quietDispatcher (mount (.str ""))).1.log =
        toastsOf (mount (.str "")).log ++
          [{ title := .str "Error", message := .str "No recordId found",
             variant := .str "error" }] ∧
      (handleClick quietDispatcher (mount (.str ""))).1.isProcessing =
        (mount (.str "")).isProcessing) :=
  ⟨Or.inr (Or.inr rfl),
    handleClick_missing_recordId quietDispatcher (mount (.str "")) (Or.inr (Or.inr rfl))⟩

/-! ## One activation: the notification -/

/-- C2 (as amended): for a truthy `recordId` and a call rejected with an object whose `body` is
an object whose `message` is a non-empty string `X`, whatever `dispatchEvent` does, the
activation hands exactly one notification to `dispatchEvent`: title "Error", message `X`,
variant "error". -/
theorem rejected_with_body_message (disp : Dispatcher) (w : World)
    (props bodyProps : List (String × JSValue)) (X : String)
    (hrid : w.recordId.truthy = true)
    (hb : props.lookup "body" = some (.obj bodyProps))
    (hm : bodyProps.lookup "message" = some (.str X))
    (hX : X ≠ "") :
    toastsOf (run disp [.click, .settle w.nextCall (.rejected (.obj props))] w).log =
      toastsOf w.log ++
        [{ title := .str "Error", message := .str X, variant := .str "error" }] := by
  have he : errorMessage (.obj props) = .ok (.str X) := by
    rw [errorMessage_of_body_message props bodyProps (.str X) hb hm]
    simp [JSValue.or, JSValue.truthy, hX]
  rw [run_click_settle disp w _ hrid, settleChain_rejected_toast disp _ _ _ he]
  simp [toastsOf_append, toastsOf, errorToast]

theorem rejected_with_body_message_witness :
    (mount (.str "a0B5e000001abcDEAQ")).recordId.truthy = true ∧
      List.lookup "body" [("body", JSValue.obj [("message", JSValue.str "Insufficient access")])] =
        some (.obj [("message", JSValue.str "Insufficient access")]) ∧
      List.lookup "message" [("message", JSValue.str "Insufficient access")] =
        some (.str "Insufficient access") ∧
      "Insufficient access" ≠ "" ∧
      toastsOf (run quietDispatcher
          [.click, .settle (mount (.str "a0B5e000001abcDEAQ")).nextCall
            (.rejected (.obj [("body", .obj [("message", .str "Insufficient access")])]))]
          (mount (.str "a0B5e000001abcDEAQ"))).log =
        toastsOf (mount (.str "a0B5e000001abcDEAQ")).log ++
          [{ title := .str "Error", message := .str "Insufficient access",
             variant := .str "error" }] :=
  ⟨by decide, rfl, rfl, by decide,
    rejected_with_body_message quietDispatcher (mount (.str "a0B5e000001abcDEAQ"))
      [("body", .obj [("message", .str "Insufficient access")])]
      [("message", .str "Insufficient access")] "Insufficient access"
      (by decide) rfl rfl (by decide)⟩

/-- C2 fails for the empty string: a call rejected with `{body: {message: ""}}` yields one
error notification whose message is "Unknown error", not the empty string. -/
theorem rejected_with_empty_message :
    toastsOf (run quietDispatcher
        [.click, .settle 0 (.rejected (.obj [("body", .obj [("message", .str "")])]))]
        (mount (.str "a0B5e000001abcDEAQ"))).log =
      [{ title := .str "Error", message := .str "Unknown error", variant := .str "error" }] ∧
    (toastsOf (run quietDispatcher
        [.click, .settle 0 (.rejected (.obj [("body", .obj [("message", .str "")])]))]
        (mount (.str "a0B5e000001abcDEAQ"))).log).map (fun t => t.message) ≠ [.str ""] := by
  have h : toastsOf (run quietDispatcher
        [.click, .settle 0 (.rejected (.obj [("body", .obj [("message", .str "")])]))]
        (mount (.str "a0B5e000001abcDEAQ"))).log =
      [{ title := .str "Error", message := .str "Unknown error", variant := .str "error" }] := by
    rfl
  refine ⟨h, ?_⟩
  rw [h]
  simp

/-- C3 (as amended): for a truthy `recordId` and a call rejected with a value other than `null`
and `undefined` that has no `body.message` (a primitive, an object without `body`, or an
object whose `body` is not an object or has no `message`), whatever `dispatchEvent` does, the
activation hands exactly one notification to `dispatchEvent`: title "Error", message
"Unknown error", variant "error". -/
theorem rejected_without_body_message (disp : Dispatcher) (w : World) (e : JSValue)
    (hrid : w.recordId.truthy = true)
    (hn : e.isNullish = false)
    (hl : lacksBodyMessage e = true) :
    toastsOf (run disp [.click, .settle w.nextCall (.rejected e)] w).log =
      toastsOf w.log ++
        [{ title := .str "Error", message := .str "Unknown error", variant := .str "error" }] := by
  rw [run_click_settle disp w _ hrid,
    settleChain_rejected_toast disp _ _ _ (errorMessage_of_lacksBodyMessage e hn hl)]
  simp [toastsOf_append, toastsOf, errorToast]

theorem rejected_without_body_message_witness :
    (mount (.str "a0B5e000001abcDEAQ")).recordId.truthy = true ∧
      (JSValue.obj [("body", .obj [])]).isNullish = false ∧
      lacksBodyMessage (.obj [("body", .obj [])]) = true ∧
      toastsOf (run quietDispatcher
          [.click, .settle (mount (.str "a0B5e000001abcDEAQ")).nextCall
            (.rejected (.obj [("body", .obj [])]))]
          (mount (.str "a0B5e000001abcDEAQ"))).log =
        toastsOf (mount (.str "a0B5e000001abcDEAQ")).log ++
          [{ title := .str "Error", message := .str "Unknown error",
             variant := .str "error" }] :=
  ⟨by decide, by decide, by decide,
    rejected_without_body_message quietDispatcher (mount (.str "a0B5e000001abcDEAQ"))
      (.obj [("body", .obj [])]) (by decide) (by decide) (by decide)⟩

/-- C3 fails for `null`: when the call is rejected with `null`, reading `error.body` throws
inside the failure continuation, so no notification at all is handed to `dispatchEvent`; the
log holds the call, the entry of the failure continuation and the cleanup. -/
theorem rejected_with_null :
    toastsOf (run quietDispatcher [.click, .settle 0 (.rejected .null)]
        (mount (.str "a0B5e000001abcDEAQ"))).log = [] ∧
    toastsOf (run quietDispatcher [.click, .settle 0 (.rejected .undefined)]
        (mount (.str "a0B5e000001abcDEAQ"))).log = [] ∧
    (run quietDispatcher [.click, .settle 0 (.rejected .null)]
        (mount (.str "a0B5e000001abcDEAQ"))).log =
      [.apexCall (.obj [("expenseId", .str "a0B5e000001abcDEAQ")]), .failureCont .null,
       .cleanupCont] :=
  ⟨rfl, rfl, rfl⟩

/-- C4 (as amended): for a truthy `recordId` and a call that is fulfilled (with any value),
provided dispatching the success notification returns, the activation hands exactly one
notification to `dispatchEvent`, with title "Success", message "All approvals have been reset"
and variant "success"; in particular none with variant "error". -/
theorem fulfilled_one_success_toast (disp : Dispatcher) (w : World) (v : JSValue)
    (hrid : w.recordId.truthy = true)
    (hd : ∀ l, disp l { title := .str "Success", message := .str "All approvals have been reset",
                        variant := .str "success" } = none) :
    toastsOf (run disp [.click, .settle w.nextCall (.fulfilled v)] w).log =
      toastsOf w.log ++
        [{ title := .str "Success", message := .str "All approvals have been reset",
           variant := .str "success" }] := by
  rw [run_click_settle disp w _ hrid, settleChain_fulfilled_quiet disp _ _ (hd _)]
  simp [toastsOf_append, toastsOf, successToast]

theorem fulfilled_one_success_toast_witness :
    (mount (.str "a0B5e000001abcDEAQ")).recordId.truthy = true ∧
      (∀ l, quietDispatcher l
          { title := .str "Success", message := .str "All approvals have been reset",
            variant := .str "success" } = none) ∧
      toastsOf (run quietDispatcher
          [.click, .settle (mount (.str "a0B5e000001abcDEAQ")).nextCall (.fulfilled .undefined)]
          (mount (.str "a0B5e000001abcDEAQ"))).log =
        toastsOf (mount (.str "a0B5e000001abcDEAQ")).log ++
          [{ title := .str "Success", message := .str "All approvals have been reset",
             variant := .str "success" }] :=
  ⟨by decide, fun _ => rfl,
    fulfilled_one_success_toast quietDispatcher (mount (.str "a0B5e000001abcDEAQ")) .undefined
      (by decide) (fun _ => rfl)⟩

/-- C4 fails when dispatching the success notification throws: the call is fulfilled, the
success notification is handed to `dispatchEvent`, which throws, the failure continuation
runs and hands over an error notification with message "Unknown error".  The activation
shows two notifications, one of them an error. -/
theorem fulfilled_with_throwing_dispatch :
    toastsOf (run failingDispatcher [.click, .settle 0 (.fulfilled .undefined)]
        (mount (.str "a0B5e000001abcDEAQ"))).log =
      [{ title := .str "Success", message := .str "All approvals have been reset",
         variant := .str "success" },
       { title := .str "Error", message := .str "Unknown error", variant := .str "error" }] ∧
    toastsOf (run failingDispatcher [.click, .settle 0 (.fulfilled .undefined)]
        (mount (.str "a0B5e000001abcDEAQ"))).log ≠
      [{ title := .str "Success", message := .str "All approvals have been reset",
         variant := .str "success" }] := by
  have h : toastsOf (run failingDispatcher [.click, .settle 0 (.fulfilled .undefined)]
        (mount (.str "a0B5e000001abcDEAQ"))).log =
      [{ title := .str "Success", message := .str "All approvals have been reset",
         variant := .str "success" },
       { title := .str "Error", message := .str "Unknown error", variant := .str "error" }] :=
    rfl
  refine ⟨h, ?_⟩
  rw [h]
  simp

/-! ## Shape of a settled chain -/

theorem getProp_ok_of_not_nullish (v : JSValue) (key : String) (h : v.isNullish = false) :
    ∃ r, v.getProp key = .ok r := by
  cases v <;> simp [JSValue.isNullish] at h <;> exact ⟨_, rfl⟩

theorem errorMessage_ok_of_not_nullish (e : JSValue) (h : e.isNullish = false) :
    ∃ m, errorMessage e = .ok m := by
  obtain ⟨b, hb⟩ := getProp_ok_of_not_nullish e "body" h
  cases hn : b.isNullish with
  | true =>
    exact ⟨JSValue.undefined.or (.str "Unknown error"),
      by simp [errorMessage, hb, JSValue.optGetProp, hn]⟩
  | false =>
    obtain ⟨m, hm⟩ := getProp_ok_of_not_nullish b "message" hn
    exact ⟨m.or (.str "Unknown error"), by simp [errorMessage, hb, JSValue.optGetProp, hn, hm]⟩

/-- After a rejection the chain enters the failure continuation once, never the success
continuation, issues no call, and ends with the cleanup, which clears the flag. -/
theorem settleChain_rejected_shape (disp : Dispatcher) (e : JSValue) (w : World) :
    ∃ evs, (settleChain disp (.rejected e) w).1 =
        { w with log := w.log ++ evs ++ [Event.cleanupCont], isProcessing := false } ∧
      successRuns evs = 0 ∧ failureRuns evs = 1 ∧ cleanupRuns evs = 0 ∧ callsOf evs = [] ∧
      continuationsOf evs = [Event.failureCont e] := by
  cases h : errorMessage e with
  | error err =>
    refine ⟨[Event.failureCont e], ?_, rfl, rfl, rfl, rfl, rfl⟩
    rw [settleChain_rejected_throw disp e err w h]
    simp
  | ok m =>
    refine ⟨[Event.failureCont e, Event.toast (errorToast m)], ?_, rfl, rfl, rfl, rfl, rfl⟩
    rw [settleChain_rejected_toast disp e m w h]
    simp

/-- After a fulfilment the chain enters the success continuation once, the failure
continuation exactly when dispatching the success notification throws, issues no call, and
ends with the cleanup, which clears the flag. -/
theorem settleChain_fulfilled_shape (disp : Dispatcher) (v : JSValue) (w : World) :
    ∃ evs, (settleChain disp (.fulfilled v) w).1 =
        { w with log := w.log ++ evs ++ [Event.cleanupCont], isProcessing := false } ∧
      successRuns evs = 1 ∧
      failureRuns evs =
        (if (disp (w.log ++ [Event.successCont]) successToast).isSome then 1 else 0) ∧
      cleanupRuns evs = 0 ∧ callsOf evs = [] ∧
      continuationsOf evs =
        (match disp (w.log ++ [Event.successCont]) successToast with
         | none => [Event.successCont]
         | some x => [Event.successCont, Event.failureCont x]) := by
  cases h : disp (w.log ++ [Event.successCont]) successToast with
  | none =>
    refine ⟨[Event.successCont, Event.toast successToast], ?_, rfl, rfl, rfl, rfl, rfl⟩
    rw [settleChain_fulfilled_quiet disp v w h]
    simp
  | some x =>
    obtain ⟨evs, h1, h2, h3, h4, h5, h6⟩ := settleChain_rejected_shape disp x
      { w with log := w.log ++ [Event.successCont, Event.toast successToast] }
    refine ⟨[Event.successCont, Event.toast successToast] ++ evs, ?_, ?_, ?_, ?_, ?_, ?_⟩
    · rw [settleChain_fulfilled_throw disp v x w h, h1]
      simp
    · simp [successRuns_append, successRuns, h2]
    · simp [failureRuns_append, failureRuns, h3]
    · simp [cleanupRuns_append, cleanupRuns, h4]
    · simp [callsOf_append, callsOf, h5]
    · simp [continuationsOf, h6]

/-- Whatever the outcome and the dispatcher, a settled chain ends with the cleanup, which runs
once and clears the flag, and nothing but the log and the flag changes. -/
theorem settleChain_shape (disp : Dispatcher) (o : Outcome) (w : World) :
    ∃ evs, (settleChain disp o w).1 =
        { w with log := w.log ++ evs ++ [Event.cleanupCont], isProcessing := false } ∧
      cleanupRuns evs = 0 ∧ callsOf evs = [] ∧ 1 ≤ successRuns evs + failureRuns evs := by
  cases o with
  | fulfilled v =>
    obtain ⟨evs, h1, h2, _, h4, h5, _⟩ := settleChain_fulfilled_shape disp v w
    exact ⟨evs, h1, h4, h5, by omega⟩
  | rejected e =>
    obtain ⟨evs, h1, _, h3, h4, h5, _⟩ := settleChain_rejected_shape disp e w
    exact ⟨evs, h1, h4, h5, by omega⟩

theorem step_click_of_truthy (disp : Dispatcher) (w : World) (h : w.recordId.truthy = true) :
    step disp w .click =
      { w with isProcessing := true,
               log := w.log ++ [Event.apexCall (requestOf w)],
               inflight := w.inflight ++ [w.nextCall],
               nextCall := w.nextCall + 1 } := by
  simp [step, handleClick_issue disp w h]

/-- Further clicks keep the flag set, the identifier unchanged and a pending call pending. -/
theorem run_clicks_keep_busy (disp : Dispatcher) (k : Nat) (acts : List Action)
    (hacts : ∀ a ∈ acts, a = Action.click) (w : World)
    (hrid : w.recordId.truthy = true) (hp : w.isProcessing = true) (hk : k ∈ w.inflight) :
    (run disp acts w).isProcessing = true ∧ k ∈ (run disp acts w).inflight := by
  induction acts generalizing w with
  | nil => exact ⟨hp, hk⟩
  | cons a acts ih =>
    have ha : a = Action.click := hacts a (List.mem_cons_self _ _)
    subst ha
    have hstep := step_click_of_truthy disp w hrid
    have hrun : run disp (Action.click :: acts) w = run disp acts (step disp w .click) := rfl
    rw [hrun]
    apply ih (fun a h => hacts a (List.mem_cons_of_mem _ h))
    · rw [hstep]; exact hrid
    · rw [hstep]
    · rw [hstep]; simp [hk]

theorem run_append (disp : Dispatcher) (xs ys : List Action) (w : World) :
    run disp (xs ++ ys) w = run disp ys (run disp xs w) := by
  simp [run, List.foldl_append]

/-- An action that does not settle the call `k` keeps `k` pending and the identifier
unchanged. -/
theorem step_keeps_pending (disp : Dispatcher) (k : Nat) (a : Action) (w : World)
    (ha : a.settlesCall k = false) (hk : k ∈ w.inflight) :
    (step disp w a).recordId = w.recordId ∧ k ∈ (step disp w a).inflight := by
  cases a with
  | click =>
    cases hr : w.recordId.truthy with
    | true =>
      rw [step_click_of_truthy disp w hr]
      exact ⟨rfl, by simp [hk]⟩
    | false =>
      have hs : step disp w .click = (handleClick disp w).1 := rfl
      rw [hs, handleClick_guard disp w hr]
      exact ⟨rfl, hk⟩
  | settle j o =>
    have hjk : k ≠ j := by
      intro h
      simp [Action.settlesCall, h] at ha
    by_cases hj : j ∈ w.inflight
    · obtain ⟨evs, h, _⟩ := settleChain_shape disp o { w with inflight := w.inflight.erase j }
      simp only [step, hj, if_true, h]
      exact ⟨trivial, (List.mem_erase_of_ne hjk).2 hk⟩
    · simp only [step, hj, if_false]
      exact ⟨trivial, hk⟩

/-- Actions none of which settles the call `k` keep `k` pending. -/
theorem run_keeps_pending (disp : Dispatcher) (k : Nat) (acts : List Action)
    (hacts : ∀ a ∈ acts, a.settlesCall k = false) (w : World) (hk : k ∈ w.inflight) :
    k ∈ (run disp acts w).inflight := by
  induction acts generalizing w with
  | nil => exact hk
  | cons a acts ih =>
    have hrun : run disp (a :: acts) w = run disp acts (step disp w a) := rfl
    rw [hrun]
    exact ih (fun b hb => hacts b (List.mem_cons_of_mem _ hb)) _
      (step_keeps_pending disp k a w (hacts a (List.mem_cons_self _ _)) hk).2

theorem step_settle_clears (disp : Dispatcher) (w : World) (k : Nat) (o : Outcome)
    (hk : k ∈ w.inflight) : (step disp w (.settle k o)).isProcessing = false := by
  obtain ⟨evs, h, _⟩ := settleChain_shape disp o { w with inflight := w.inflight.erase k }
  simp [step, hk, h]

/-! ## The busy flag -/

/-- C5 (as amended): for a truthy `recordId`, after the click the flag is `true`, and it stays
`true` at every later point reached by further clicks only, that is, as long as no call
settles; and it is `false` right after the call of this click has settled, fulfilled or
rejected, whatever clicks and settlements of other calls happened in between. -/
theorem busy_until_a_call_settles (disp : Dispatcher) (w : World) (acts1 acts2 : List Action)
    (o : Outcome) (hrid : w.recordId.truthy = true)
    (h1 : ∀ a ∈ acts1, a = Action.click)
    (h2 : ∀ a ∈ acts2, a.settlesCall w.nextCall = false) :
    (run disp (.click :: acts1) w).isProcessing = true ∧
      (run disp (.click :: acts2 ++ [.settle w.nextCall o]) w).isProcessing = false := by
  have hstep := step_click_of_truthy disp w hrid
  have hrun : ∀ l, run disp (Action.click :: l) w = run disp l (step disp w .click) :=
    fun _ => rfl
  have hinv := run_clicks_keep_busy disp w.nextCall acts1 h1 (step disp w .click)
    (by rw [hstep]; exact hrid) (by rw [hstep]) (by rw [hstep]; simp)
  have hpend := run_keeps_pending disp w.nextCall acts2 h2 (step disp w .click)
    (by rw [hstep]; simp)
  refine ⟨by rw [hrun]; exact hinv.1, ?_⟩
  rw [run_append, hrun]
  exact step_settle_clears disp _ _ o hpend

theorem busy_until_a_call_settles_witness :
    (mount (.str "a0B5e000001abcDEAQ")).recordId.truthy = true ∧
      (∀ a ∈ [Action.click], a = Action.click) ∧
      (∀ a ∈ [Action.click, Action.settle 1 (.rejected .null)],
        a.settlesCall (mount (.str "a0B5e000001abcDEAQ")).nextCall = false) ∧
      (run quietDispatcher (.click :: [Action.click])
          (mount (.str "a0B5e000001abcDEAQ"))).isProcessing = true ∧
      (run quietDispatcher
          (.click :: [Action.click, Action.settle 1 (.rejected .null)] ++
            [.settle (mount (.str "a0B5e000001abcDEAQ")).nextCall (.fulfilled .undefined)])
          (mount (.str "a0B5e000001abcDEAQ"))).isProcessing = false :=
  ⟨by decide, by simp, by simp [Action.settlesCall, mount],
    busy_until_a_call_settles quietDispatcher (mount (.str "a0B5e000001abcDEAQ"))
      [Action.click] [Action.click, Action.settle 1 (.rejected .null)] (.fulfilled .undefined)
      (by decide) (by simp) (by simp [Action.settlesCall, mount])⟩

/-- C5 fails when activations overlap: after two clicks the flag is `true` and calls 0 and 1
are in flight; when call 0 settles the cleanup clears the flag although call 1, issued by
the second click, is still in flight. -/
theorem flag_cleared_while_call_in_flight :
    (run quietDispatcher [.click, .click] (mount (.str "a0B5e000001abcDEAQ"))).isProcessing
        = true ∧
      (run quietDispatcher [.click, .click] (mount (.str "a0B5e000001abcDEAQ"))).inflight
        = [0, 1] ∧
      (run quietDispatcher [.click, .click, .settle 0 (.fulfilled .undefined)]
        (mount (.str "a0B5e000001abcDEAQ"))).inflight = [1] ∧
      (run quietDispatcher [.click, .click, .settle 0 (.fulfilled .undefined)]
        (mount (.str "a0B5e000001abcDEAQ"))).isProcessing = false :=
  ⟨rfl, rfl, rfl, rfl⟩

/-- C6: for a truthy `recordId`, every outcome of the call (fulfilled or rejected with any
value, `null` included) and every behaviour of `dispatchEvent` (throwing included), the
events of the activation end with the cleanup continuation, which runs once, after the call
and after everything the other continuations did, and the flag is `false` afterwards. -/
theorem cleanup_always_runs (disp : Dispatcher) (w : World) (o : Outcome)
    (hrid : w.recordId.truthy = true) :
    (activate disp o w).isProcessing = false ∧
      ∃ evs, (activate disp o w).log =
          w.log ++ [Event.apexCall (.obj [("expenseId", w.recordId)])] ++ evs
            ++ [Event.cleanupCont] ∧
        cleanupRuns evs = 0 := by
  unfold activate
  rw [run_click_settle disp w o hrid]
  obtain ⟨evs, h, hc, _⟩ := settleChain_shape disp o
    { w with isProcessing := true,
             log := w.log ++ [Event.apexCall (requestOf w)],
             inflight := (w.inflight ++ [w.nextCall]).erase w.nextCall,
             nextCall := w.nextCall + 1 }
  rw [h]
  exact ⟨rfl, evs, by simp [requestOf], hc⟩

theorem cleanup_always_runs_witness :
    (mount (.str "a0B5e000001abcDEAQ")).recordId.truthy = true ∧
      ((activate failingDispatcher (.fulfilled .undefined)
          (mount (.str "a0B5e000001abcDEAQ"))).isProcessing = false ∧
        ∃ evs, (activate failingDispatcher (.fulfilled .undefined)
            (mount (.str "a0B5e000001abcDEAQ"))).log =
          (mount (.str "a0B5e000001abcDEAQ")).log ++
            [Event.apexCall (.obj [("expenseId", (mount (.str "a0B5e000001abcDEAQ")).recordId)])]
            ++ evs ++ [Event.cleanupCont] ∧
          cleanupRuns evs = 0) :=
  ⟨by decide,
    cleanup_always_runs failingDispatcher (mount (.str "a0B5e000001abcDEAQ"))
      (.fulfilled .undefined) (by decide)⟩

/-! ## The request -/

/-- C7 (as amended): for a truthy `recordId`, a whole activation passes exactly one request to
`resetApprovals`, issued by the click itself, and that request is the object
`{expenseId: recordId}`: its field `expenseId` holds the component's `recordId`. -/
theorem one_request_with_expenseId (disp : Dispatcher) (w : World) (o : Outcome)
    (hrid : w.recordId.truthy = true) :
    callsOf (handleClick disp w).1.log = callsOf w.log ++ [.obj [("expenseId", w.recordId)]] ∧
      callsOf (activate disp o w).log = callsOf w.log ++ [.obj [("expenseId", w.recordId)]] ∧
      (JSValue.obj [("expenseId", w.recordId)]).getProp "expenseId" = .ok w.recordId := by
  refine ⟨?_, ?_, ?_⟩
  · rw [handleClick_issue disp w hrid]
    simp [callsOf_append, callsOf, requestOf]
  · unfold activate
    rw [run_click_settle disp w o hrid]
    obtain ⟨evs, h, _, hc, _⟩ := settleChain_shape disp o
      { w with isProcessing := true,
               log := w.log ++ [Event.apexCall (requestOf w)],
               inflight := (w.inflight ++ [w.nextCall]).erase w.nextCall,
               nextCall := w.nextCall + 1 }
    rw [h]
    simp [callsOf_append, callsOf, requestOf, hc]
  · simp [JSValue.getProp, List.lookup]

theorem one_request_with_expenseId_witness :
    (mount (.str "a0B5e000001abcDEAQ")).recordId.truthy = true ∧
      (callsOf (handleClick quietDispatcher (mount (.str "a0B5e000001abcDEAQ"))).1.log =
        callsOf (mount (.str "a0B5e000001abcDEAQ")).log ++
          [.obj [("expenseId", (mount (.str "a0B5e000001abcDEAQ")).recordId)]] ∧
      callsOf (activate quietDispatcher (.fulfilled .undefined)
          (mount (.str "a0B5e000001abcDEAQ"))).log =
        callsOf (mount (.str "a0B5e000001abcDEAQ")).log ++
          [.obj [("expenseId", (mount (.str "a0B5e000001abcDEAQ")).recordId)]] ∧
      (JSValue.obj [("expenseId", (mount (.str "a0B5e000001abcDEAQ")).recordId)]).getProp
          "expenseId" = .ok (mount (.str "a0B5e000001abcDEAQ")).recordId) :=
  ⟨by decide,
    one_request_with_expenseId quietDispatcher (mount (.str "a0B5e000001abcDEAQ"))
      (.fulfilled .undefined) (by decide)⟩

/-- C7 fails on the name of the field: the request built for `recordId`
"a0B5e000001abcDEAQ" is `{expenseId: "a0B5e000001abcDEAQ"}`, and reading its `recordId` gives
`undefined`, not the identifier. -/
theorem request_has_no_recordId_field :
    callsOf (handleClick quietDispatcher (mount (.str "a0B5e000001abcDEAQ"))).1.log =
        [.obj [("expenseId", .str "a0B5e000001abcDEAQ")]] ∧
      (callsOf (handleClick quietDispatcher (mount (.str "a0B5e000001abcDEAQ"))).1.log).map
          (fun r => r.getProp "recordId") = [.ok .undefined] ∧
      (callsOf (handleClick quietDispatcher (mount (.str "a0B5e000001abcDEAQ"))).1.log).map
          (fun r => r.getProp "recordId") ≠ [.ok (.str "a0B5e000001abcDEAQ")] := by
  have h : (callsOf (handleClick quietDispatcher
        (mount (.str "a0B5e000001abcDEAQ"))).1.log).map
      (fun r => r.getProp "recordId") = [.ok .undefined] := rfl
  refine ⟨rfl, h, ?_⟩
  rw [h]
  simp

/-! ## Order of the continuations -/

/-- C8 (as amended): for a truthy `recordId`, every outcome and every behaviour of
`dispatchEvent`, the events of the activation after the call end with the cleanup
continuation, which runs once, after the other continuations, and clears the flag.  Before
it at least one of the success and failure continuations runs: after a rejection with `e`
the failure continuation alone, once, with `e`; after a fulfilment the success continuation
once, alone when dispatching the success notification returns, and followed by the failure
continuation, once and with the thrown value, when that dispatch throws.  So exactly one of
the two runs whenever that dispatch returns. -/
theorem continuations_then_cleanup (disp : Dispatcher) (w : World) (o : Outcome)
    (hrid : w.recordId.truthy = true) :
    ∃ evs, (activate disp o w).log =
        w.log ++ [Event.apexCall (.obj [("expenseId", w.recordId)])] ++ evs
          ++ [Event.cleanupCont] ∧
      (activate disp o w).isProcessing = false ∧
      cleanupRuns evs = 0 ∧
      1 ≤ successRuns evs + failureRuns evs ∧
      (∀ e, o = .rejected e → successRuns evs = 0 ∧ failureRuns evs = 1 ∧
        continuationsOf evs = [Event.failureCont e]) ∧
      (∀ v, o = .fulfilled v → successRuns evs = 1 ∧
        failureRuns evs =
          (if (disp (w.log ++ [Event.apexCall (.obj [("expenseId", w.recordId)]),
                Event.successCont]) successToast).isSome then 1 else 0) ∧
        continuationsOf evs =
          (match disp (w.log ++ [Event.apexCall (.obj [("expenseId", w.recordId)]),
                Event.successCont]) successToast with
           | none => [Event.successCont]
           | some x => [Event.successCont, Event.failureCont x])) := by
  unfold activate
  rw [run_click_settle disp w o hrid]
  cases o with
  | fulfilled v =>
    obtain ⟨evs, h, h1, h2, h3, _, h6⟩ := settleChain_fulfilled_shape disp v
      { w with isProcessing := true,
               log := w.log ++ [Event.apexCall (requestOf w)],
               inflight := (w.inflight ++ [w.nextCall]).erase w.nextCall,
               nextCall := w.nextCall + 1 }
    rw [h]
    refine ⟨evs, by simp [requestOf], rfl, h3, by omega, ?_, ?_⟩
    · intro e he
      cases he
    · intro _ _
      refine ⟨h1, ?_, ?_⟩
      · rw [h2]
        simp [requestOf]
      · rw [h6]
        simp [requestOf]
  | rejected e =>
    obtain ⟨evs, h, h1, h2, h3, _, h6⟩ := settleChain_rejected_shape disp e
      { w with isProcessing := true,
               log := w.log ++ [Event.apexCall (requestOf w)],
               inflight := (w.inflight ++ [w.nextCall]).erase w.nextCall,
               nextCall := w.nextCall + 1 }
    rw [h]
    refine ⟨evs, by simp [requestOf], rfl, h3, by omega, ?_, ?_⟩
    · intro e2 he
      cases he
      exact ⟨h1, h2, h6⟩
    · intro v hv
      cases hv

theorem continuations_then_cleanup_witness :
    (mount (.str "a0B5e000001abcDEAQ")).recordId.truthy = true ∧
      ∃ evs, (activate failingDispatcher (.fulfilled .undefined)
            (mount (.str "a0B5e000001abcDEAQ"))).log =
          (mount (.str "a0B5e000001abcDEAQ")).log ++
            [Event.apexCall (.obj [("expenseId", (mount (.str "a0B5e000001abcDEAQ")).recordId)])]
            ++ evs ++ [Event.cleanupCont] ∧
        (activate failingDispatcher (.fulfilled .undefined)
            (mount (.str "a0B5e000001abcDEAQ"))).isProcessing = false ∧
        cleanupRuns evs = 0 ∧
        1 ≤ successRuns evs + failureRuns evs ∧
        (∀ e, Outcome.fulfilled .undefined = .rejected e →
          successRuns evs = 0 ∧ failureRuns evs = 1 ∧
          continuationsOf evs = [Event.failureCont e]) ∧
        (∀ v, Outcome.fulfilled .undefined = .fulfilled v → successRuns evs = 1 ∧
          failureRuns evs =
            (if (failingDispatcher ((mount (.str "a0B5e000001abcDEAQ")).log ++
                  [Event.apexCall
                    (.obj [("expenseId", (mount (.str "a0B5e000001abcDEAQ")).recordId)]),
                  Event.successCont]) successToast).isSome then 1 else 0) ∧
          continuationsOf evs =
            (match failingDispatcher ((mount (.str "a0B5e000001abcDEAQ")).log ++
                  [Event.apexCall
                    (.obj [("expenseId", (mount (.str "a0B5e000001abcDEAQ")).recordId)]),
                  Event.successCont]) successToast with
             | none => [Event.successCont]
             | some x => [Event.successCont, Event.failureCont x])) :=
  ⟨by decide,
    continuations_then_cleanup failingDispatcher (mount (.str "a0B5e000001abcDEAQ"))
      (.fulfilled .undefined) (by decide)⟩

/-- C8 fails when dispatching the success notification throws: the call is fulfilled, the
success continuation runs and its `dispatchEvent` throws, the promise of `.then` is thereby
rejected, and the failure continuation runs too, before the cleanup.  Both continuations
run, once each. -/
theorem both_continuations_run :
    (activate failingDispatcher (.fulfilled .undefined)
        (mount (.str "a0B5e000001abcDEAQ"))).log =
      [.apexCall (.obj [("expenseId", .str "a0B5e000001abcDEAQ")]),
       .successCont,
       .toast { title := .str "Success", message := .str "All approvals have been reset",
                variant := .str "success" },
       .failureCont (.obj [("name", .str "Error"), ("message", .str "dispatch failed")]),
       .toast { title := .str "Error", message := .str "Unknown error",
                variant := .str "error" },
       .cleanupCont] ∧
    successRuns (activate failingDispatcher (.fulfilled .undefined)
        (mount (.str "a0B5e000001abcDEAQ"))).log = 1 ∧
    failureRuns (activate failingDispatcher (.fulfilled .undefined)
        (mount (.str "a0B5e000001abcDEAQ"))).log = 1 :=
  ⟨rfl, rfl, rfl⟩

/-- The world after an activation with an outcome that is not a rejection with `null` or
`undefined`, on a platform where dispatching the success notification returns: the log grows
by the call and by events that depend on the outcome only and hold exactly one
notification. -/
theorem activate_eq (o : Outcome) (ho : o.rejectedNullish = false) :
    ∃ evs t, toastsOf evs = [t] ∧ callsOf evs = [] ∧
      ∀ (disp : Dispatcher) (w : World), w.recordId.truthy = true →
        (∀ l, disp l successToast = none) →
        activate disp o w =
          { w with isProcessing := false,
                   log := w.log ++ Event.apexCall (requestOf w) :: evs,
                   inflight := (w.inflight ++ [w.nextCall]).erase w.nextCall,
                   nextCall := w.nextCall + 1 } := by
  cases o with
  | fulfilled v =>
    refine ⟨[Event.successCont, Event.toast successToast, Event.cleanupCont], successToast,
      rfl, rfl, ?_⟩
    intro disp w hrid hd
    unfold activate
    rw [run_click_settle disp w _ hrid, settleChain_fulfilled_quiet disp _ _ (hd _)]
    simp
  | rejected e =>
    obtain ⟨m, hm⟩ := errorMessage_ok_of_not_nullish e ho
    refine ⟨[Event.failureCont e, Event.toast (errorToast m), Event.cleanupCont], errorToast m,
      rfl, rfl, ?_⟩
    intro disp w hrid _
    unfold activate
    rw [run_click_settle disp w _ hrid, settleChain_rejected_toast disp _ _ _ hm]
    simp

/-! ## Repeated activations -/

/-- C9: there is no reentrancy guard.  For a truthy `recordId`, after a first click the flag is
`true` and the call is in flight; a second click in that state is not blocked: it issues a
second request, with an identifier of its own, and both calls are in flight at once. -/
theorem second_click_issues_second_request (disp : Dispatcher) (w : World)
    (hrid : w.recordId.truthy = true) :
    (run disp [.click] w).isProcessing = true ∧
      (run disp [.click] w).inflight = w.inflight ++ [w.nextCall] ∧
      (run disp [.click, .click] w).inflight = w.inflight ++ [w.nextCall, w.nextCall + 1] ∧
      callsOf (run disp [.click, .click] w).log =
        callsOf w.log ++ [.obj [("expenseId", w.recordId)], .obj [("expenseId", w.recordId)]] ∧
      (run disp [.click, .click] w).isProcessing = true := by
  have h1 : run disp [.click] w = step disp w .click := rfl
  have h2 : run disp [.click, .click] w = step disp (step disp w .click) .click := rfl
  have hs := step_click_of_truthy disp w hrid
  have hs2 := step_click_of_truthy disp (step disp w .click) (by rw [hs]; exact hrid)
  rw [h1, h2, hs2, hs]
  simp [callsOf_append, callsOf, requestOf]

theorem second_click_issues_second_request_witness :
    (mount (.str "a0B5e000001abcDEAQ")).recordId.truthy = true ∧
      ((run quietDispatcher [.click] (mount (.str "a0B5e000001abcDEAQ"))).isProcessing = true ∧
      (run quietDispatcher [.click] (mount (.str "a0B5e000001abcDEAQ"))).inflight =
        (mount (.str "a0B5e000001abcDEAQ")).inflight ++
          [(mount (.str "a0B5e000001abcDEAQ")).nextCall] ∧
      (run quietDispatcher [.click, .click] (mount (.str "a0B5e000001abcDEAQ"))).inflight =
        (mount (.str "a0B5e000001abcDEAQ")).inflight ++
          [(mount (.str "a0B5e000001abcDEAQ")).nextCall,
           (mount (.str "a0B5e000001abcDEAQ")).nextCall + 1] ∧
      callsOf (run quietDispatcher [.click, .click] (mount (.str "a0B5e000001abcDEAQ"))).log =
        callsOf (mount (.str "a0B5e000001abcDEAQ")).log ++
          [.obj [("expenseId", (mount (.str "a0B5e000001abcDEAQ")).recordId)],
           .obj [("expenseId", (mount (.str "a0B5e000001abcDEAQ")).recordId)]] ∧
      (run quietDispatcher [.click, .click]
        (mount (.str "a0B5e000001abcDEAQ"))).isProcessing = true) :=
  ⟨by decide,
    second_click_issues_second_request quietDispatcher (mount (.str "a0B5e000001abcDEAQ"))
      (by decide)⟩

/-- C10 (as amended): for a truthy `recordId`, on a platform where dispatching the success
notification returns, and for two outcomes neither of which is a rejection with `null` or
`undefined`: activating, letting the call settle, and activating again passes two requests
to `resetApprovals` and hands two notifications to `dispatchEvent`; the first notification
is the one a single activation of a fresh component shows for the first outcome, the second
the one it shows for the second outcome; and the flag is `false` after each settlement. -/
theorem two_sequential_activations (disp : Dispatcher) (w : World) (o1 o2 : Outcome)
    (hrid : w.recordId.truthy = true)
    (hd : ∀ l, disp l { title := .str "Success", message := .str "All approvals have been reset",
                        variant := .str "success" } = none)
    (h1 : o1.rejectedNullish = false) (h2 : o2.rejectedNullish = false) :
    ∃ t1 t2,
      toastsOf (activate disp o1 (mount w.recordId)).log = [t1] ∧
      toastsOf (activate disp o2 (mount w.recordId)).log = [t2] ∧
      toastsOf (activate disp o1 w).log = toastsOf w.log ++ [t1] ∧
      toastsOf (activate disp o2 (activate disp o1 w)).log = toastsOf w.log ++ [t1, t2] ∧
      callsOf (activate disp o2 (activate disp o1 w)).log =
        callsOf w.log ++ [.obj [("expenseId", w.recordId)], .obj [("expenseId", w.recordId)]] ∧
      (activate disp o1 w).isProcessing = false ∧
      (activate disp o2 (activate disp o1 w)).isProcessing = false := by
  obtain ⟨evs1, t1, ht1, hc1, hA⟩ := activate_eq o1 h1
  obtain ⟨evs2, t2, ht2, hc2, hB⟩ := activate_eq o2 h2
  have hd2 : ∀ l, disp l successToast = none := hd
  have hm : (mount w.recordId).recordId.truthy = true := hrid
  have hw1 := hA disp w hrid hd2
  have hrid1 : (activate disp o1 w).recordId.truthy = true := by rw [hw1]; exact hrid
  have hw2 := hB disp (activate disp o1 w) hrid1 hd2
  refine ⟨t1, t2, ?_, ?_, ?_, ?_, ?_, ?_, ?_⟩
  · rw [hA disp _ hm hd2]
    simp [mount, toastsOf, ht1]
  · rw [hB disp _ hm hd2]
    simp [mount, toastsOf, ht2]
  · rw [hw1]
    simp [toastsOf_append, toastsOf, ht1]
  · rw [hw2, hw1]
    simp [toastsOf_append, toastsOf, ht1, ht2]
  · rw [hw2, hw1]
    simp [callsOf_append, callsOf, hc1, hc2, requestOf]
  · rw [hw1]
  · rw [hw2]

theorem two_sequential_activations_witness :
    (mount (.str "a0B5e000001abcDEAQ")).recordId.truthy = true ∧
      (∀ l, quietDispatcher l
          { title := .str "Success", message := .str "All approvals have been reset",
            variant := .str "success" } = none) ∧
      (Outcome.rejected (.obj [("body", .obj [("message", .str "Insufficient access")])])
        ).rejectedNullish = false ∧
      (Outcome.fulfilled .undefined).rejectedNullish = false ∧
      ∃ t1 t2,
        toastsOf (activate quietDispatcher
            (.rejected (.obj [("body", .obj [("message", .str "Insufficient access")])]))
            (mount (mount (.str "a0B5e000001abcDEAQ")).recordId)).log = [t1] ∧
        toastsOf (activate quietDispatcher (.fulfilled .undefined)
            (mount (mount (.str "a0B5e000001abcDEAQ")).recordId)).log = [t2] ∧
        toastsOf (activate quietDispatcher
            (.rejected (.obj [("body", .obj [("message", .str "Insufficient access")])]))
            (mount (.str "a0B5e000001abcDEAQ"))).log =
          toastsOf (mount (.str "a0B5e000001abcDEAQ")).log ++ [t1] ∧
        toastsOf (activate quietDispatcher (.fulfilled .undefined)
            (activate quietDispatcher
              (.rejected (.obj [("body", .obj [("message", .str "Insufficient access")])]))
              (mount (.str "a0B5e000001abcDEAQ")))).log =
          toastsOf (mount (.str "a0B5e000001abcDEAQ")).log ++ [t1, t2] ∧
        callsOf (activate quietDispatcher (.fulfilled .undefined)
            (activate quietDispatcher
              (.rejected (.obj [("body", .obj [("message", .str "Insufficient access")])]))
              (mount (.str "a0B5e000001abcDEAQ")))).log =
          callsOf (mount (.str "a0B5e000001abcDEAQ")).log ++
            [.obj [("expenseId", (mount (.str "a0B5e000001abcDEAQ")).recordId)],
             .obj [("expenseId", (mount (.str "a0B5e000001abcDEAQ")).recordId)]] ∧
        (activate quietDispatcher
            (.rejected (.obj [("body", .obj [("message", .str "Insufficient access")])]))
            (mount (.str "a0B5e000001abcDEAQ"))).isProcessing = false ∧
        (activate quietDispatcher (.fulfilled .undefined)
            (activate quietDispatcher
              (.rejected (.obj [("body", .obj [("message", .str "Insufficient access")])]))
              (mount (.str "a0B5e000001abcDEAQ")))).isProcessing = false :=
  ⟨by decide, fun _ => rfl, rfl, rfl,
    two_sequential_activations quietDispatcher (mount (.str "a0B5e000001abcDEAQ"))
      (.rejected (.obj [("body", .obj [("message", .str "Insufficient access")])]))
      (.fulfilled .undefined) (by decide) (fun _ => rfl) rfl rfl⟩

/-- C10 fails when an outcome is a rejection with `null`: the first activation, rejected with
`null`, shows no notification, so the two activations together show one notification, not
two; both requests are issued and the flag is `false` after each settlement. -/
theorem sequential_activations_one_toast :
    toastsOf (activate quietDispatcher (.fulfilled .undefined)
        (activate quietDispatcher (.rejected .null)
          (mount (.str "a0B5e000001abcDEAQ")))).log =
      [{ title := .str "Success", message := .str "All approvals have been reset",
         variant := .str "success" }] ∧
    (toastsOf (activate quietDispatcher (.fulfilled .undefined)
        (activate quietDispatcher (.rejected .null)
          (mount (.str "a0B5e000001abcDEAQ")))).log).length ≠ 2 ∧
    toastsOf (activate quietDispatcher (.rejected .null)
        (mount (.str "a0B5e000001abcDEAQ"))).log = [] :=
  ⟨rfl, by decide, rfl⟩

end ResetAllApprovals
